import Mathlib

/-
  Verification development for the Axcess payment-gateway adapter
  (class PaymentGatewayAxcess, src/unnamed/part_001).

  The adapter manipulates loosely typed JavaScript values (parsed webhook
  JSON, header maps, config objects).  We embed those values as the
  inductive type Json below, together with the JavaScript coercions the
  source relies on: truthiness, the logical-or fallback chain, property
  access (including optional chaining, which on a non-object simply yields
  undefined), String(...) and Number(...) conversion, toLowerCase,
  startsWith, includes and trim.  Numbers are modelled as rationals; the
  exotic corners of JS numeric formatting and parsing (exponent and hex
  literal forms, shortest-round-trip float printing) are abstracted, and no
  claim below depends on them.

  External collaborators (node crypto primitives, JSON.parse, base64 and
  utf8 codecs) are passed in as an explicit record of functions (Ext),
  mirroring the spec treatment of everything outside the core as an
  interface.  The persistence facade and the HTTP layer are modelled as
  event traces: each adapter operation returns, next to its result, the
  ordered list of facade or network calls it attempted.
-/

namespace Axcess

mutual
/-- A JavaScript value as it can appear in the adapter: the JSON universe
    plus undefined (absent property).  Arrays and objects carry their own
    list types so that recursion over values stays structural and reduces
    inside the kernel. -/
inductive Json where
  | jundefined
  | jnull
  | jbool (b : Bool)
  | jnum (q : Rat)
  | jstr (s : String)
  | jarr (elems : JsonList)
  | jobj (fields : JsonFields)

/-- A list of JSON values (array elements). -/
inductive JsonList where
  | nil
  | cons (hd : Json) (tl : JsonList)

/-- An ordered list of key-value properties of a JSON object. -/
inductive JsonFields where
  | nil
  | cons (key : String) (val : Json) (tl : JsonFields)
end

/-- Build object fields from a list literal. -/
def JsonFields.ofList : List (String × Json) → JsonFields
  | [] => .nil
  | (k, v) :: t => .cons k v (JsonFields.ofList t)

/-- Build a JSON array from a list literal. -/
def JsonList.ofList : List Json → JsonList
  | [] => .nil
  | j :: t => .cons j (JsonList.ofList t)

/-- JavaScript s.startsWith(p), computed on the character lists (the core
    library loop does not reduce inside the kernel). -/
def strStartsWith (s p : String) : Bool := p.data.isPrefixOf s.data

/-- JavaScript s.toLowerCase() (ASCII, as all strings the source lowers). -/
def strToLower (s : String) : String := String.mk (s.data.map Char.toLower)

/-- JavaScript s.trim(): whitespace stripped from both ends. -/
def strTrim (s : String) : String :=
  String.mk (((s.data.dropWhile Char.isWhitespace).reverse.dropWhile Char.isWhitespace).reverse)

/-- Emptiness test on the character list. -/
def strIsEmptyB (s : String) : Bool := s.data.isEmpty

theorem strIsEmptyB_iff (s : String) : strIsEmptyB s = true ↔ s = "" := by
  unfold strIsEmptyB
  simp [List.isEmpty_iff, String.ext_iff]

/-- JavaScript truthiness. 0, empty string, null, undefined and false are
    falsy; every array and object is truthy. -/
def truthy : Json → Bool
  | .jundefined => false
  | .jnull => false
  | .jbool b => b
  | .jnum q => q != 0
  | .jstr s => !(strIsEmptyB s)
  | .jarr _ => true
  | .jobj _ => true

/-- First property with the given key, undefined when absent. -/
def jlookup : JsonFields → String → Json
  | .nil, _ => .jundefined
  | .cons k v t, key => if k = key then v else jlookup t key

/-- Property access x.k (also models x?.k: on any non-object, including
    null and undefined, the source only ever reads properties behind a
    guard or optional chain, and a missing property is undefined). -/
def jget : Json → String → Json
  | .jobj fields, k => jlookup fields k
  | _, _ => .jundefined

/-- JavaScript a || b. -/
def jsOr (a b : Json) : Json := if truthy a then a else b

/-- Truthiness of an optional header value (absent or empty string is falsy). -/
def strTruthy : Option String → Bool
  | some s => !(strIsEmptyB s)
  | none => false

/-- JavaScript a || b on optional header strings. -/
def jsOrStr (a b : Option String) : Option String := if strTruthy a then a else b

/-- Exact-key lookup in a header map, headers[name]. -/
def hdrGet (headers : List (String × String)) (name : String) : Option String :=
  match headers.find? (fun kv => kv.1 = name) with
  | some kv => some kv.2
  | none => none

/-- Substring test on character lists, the core of String.prototype.includes. -/
def charsIncludes (pat : List Char) : List Char → Bool
  | [] => pat.isEmpty
  | c :: t => pat.isPrefixOf (c :: t) || charsIncludes pat t

/-- JavaScript s.includes(pat). -/
def strIncludes (s pat : String) : Bool := charsIncludes pat.data s.data


mutual
/-- JavaScript String(x). Arrays stringify as their elements joined by
    commas (null and undefined elements print as nothing); plain objects
    print as [object Object]. Number rendering is abstracted to the exact
    rational rendering; no verified claim stringifies a number. -/
def jsToString : Json → String
  | .jundefined => "undefined"
  | .jnull => "null"
  | .jbool b => cond b "true" "false"
  | .jnum q => if q.den == 1 then toString q.num else toString q
  | .jstr s => s
  | .jarr l => jsArrToString l
  | .jobj _ => "[object Object]"
termination_by structural j => j

/-- Array stringification: elements joined by commas, null and undefined
    elements invisible. -/
def jsArrToString : JsonList → String
  | .nil => ""
  | .cons x xs =>
    (match x with
     | .jnull => ""
     | .jundefined => ""
     | y => jsToString y)
    ++ (match xs with | .nil => "" | .cons _ _ => ",") ++ jsArrToString xs
termination_by structural l => l
end

/-- Digit run to natural number value. -/
def digitsVal (ds : List Char) : Nat :=
  ds.foldl (fun a c => a * 10 + (c.toNat - 48)) 0

/-- JavaScript Number(string): optional sign, decimal digits with an
    optional fractional part; whitespace-only is 0; anything else is NaN
    (None). Exponent, hex and Infinity forms are abstracted to NaN; no
    verified claim feeds them in. -/
def jsStrToNumber (s : String) : Option Rat :=
  let t := strTrim s
  if strIsEmptyB t then some 0 else
  let cs := t.data
  let signAndRest : Bool × List Char :=
    match cs with
    | c :: rest => if c = '-' then (true, rest) else if c = '+' then (false, rest) else (false, cs)
    | [] => (false, cs)
  let neg := signAndRest.1
  let body := signAndRest.2
  let intPart := body.takeWhile fun c => c.isDigit
  let rest := body.dropWhile fun c => c.isDigit
  let signed : Rat → Option Rat := fun q => some (if neg then -q else q)
  match rest with
  | [] => if intPart.isEmpty then none else signed (digitsVal intPart)
  | '.' :: fr =>
    let frPart := fr.takeWhile fun c => c.isDigit
    let rest2 := fr.dropWhile fun c => c.isDigit
    if rest2.isEmpty && !(intPart.isEmpty && frPart.isEmpty) then
      signed (mkRat (digitsVal intPart * 10 ^ frPart.length + digitsVal frPart) (10 ^ frPart.length))
    else none
  | _ => none

/-- JavaScript Number(x); None models NaN. -/
def jsToNumber : Json → Option Rat
  | .jundefined => none
  | .jnull => some 0
  | .jbool b => some (cond b 1 0)
  | .jnum q => some q
  | .jstr s => jsStrToNumber s
  | .jarr l => jsStrToNumber (jsToString (.jarr l))
  | .jobj fields => jsStrToNumber (jsToString (.jobj fields))

/-- Value of one hex digit character, if it is one. -/
def hexDigitVal (c : Char) : Option Nat :=
  if 48 ≤ c.toNat ∧ c.toNat ≤ 57 then some (c.toNat - 48)
  else if 97 ≤ c.toNat ∧ c.toNat ≤ 102 then some (c.toNat - 87)
  else if 65 ≤ c.toNat ∧ c.toNat ≤ 70 then some (c.toNat - 55)
  else none

/-- Node Buffer.from(str, hex): decodes complete hex pairs, stopping at the
    first invalid character or the odd trailing digit. -/
def hexDecodePairs : List Char → List Nat
  | c1 :: c2 :: rest =>
    match hexDigitVal c1, hexDigitVal c2 with
    | some h, some l => (h * 16 + l) :: hexDecodePairs rest
    | _, _ => []
  | _ => []

/-- Hex-decode a string into bytes. -/
def hexDecodeStr (s : String) : List Nat := hexDecodePairs s.data

/-- Lower-case hex digit character for a value below 16. -/
def hexDigitChar (n : Nat) : Char :=
  if n < 10 then Char.ofNat (48 + n) else Char.ofNat (87 + n)

/-- Node buf.toString(hex): two lower-case hex digits per byte. -/
def hexEncodeBytes (l : List Nat) : List Char :=
  l.flatMap fun b => [hexDigitChar ((b / 16) % 16), hexDigitChar (b % 16)]

/-- The signature header preprocessing signature.replace(applied to the
    leading 0x only). -/
def strip0x (s : String) : String :=
  if strStartsWith s "0x" then String.mk (s.data.drop 2) else s

theorem hexDigitVal_hexDigitChar (n : Nat) (h : n < 16) :
    hexDigitVal (hexDigitChar n) = some n := by
  interval_cases n <;> decide

theorem hexDecode_hexEncode (l : List Nat) (h : ∀ b ∈ l, b < 256) :
    hexDecodePairs (hexEncodeBytes l) = l := by
  induction l with
  | nil => rfl
  | cons b t ih =>
    have hb : b < 256 := h b (by simp)
    have h1 : (b / 16) % 16 < 16 := Nat.mod_lt _ (by norm_num)
    have h2 : b % 16 < 16 := Nat.mod_lt _ (by norm_num)
    have ht := ih (fun x hx => h x (by simp [hx]))
    simp [hexEncodeBytes, List.flatMap_cons, hexDecodePairs,
      hexDigitVal_hexDigitChar _ h1, hexDigitVal_hexDigitChar _ h2]
    constructor
    · omega
    · simpa [hexEncodeBytes] using ht

/-! ### External collaborators and configuration -/

/-- External library functions used by the adapter (node crypto, codecs,
    JSON.parse).  They are parameters of the embedding: the claims under
    verification depend only on how the adapter wires them together, plus
    digest-shape facts stated as explicit hypotheses where needed.
    b64decode models Buffer.from(s, base64), which is lenient and total;
    aesDecrypt models createDecipheriv(aes-256-cbc)+update+final over
    key, iv, ciphertext, with None for a thrown cipher error; utf8Decode
    models buf.toString(utf8) (total in node); jsonParse models
    JSON.parse with None for a thrown SyntaxError. -/
structure Ext where
  b64decode : String → List Nat
  aesDecrypt : List Nat → List Nat → List Nat → Option (List Nat)
  sha256 : String → List Nat
  hmacSha256 : List Nat → String → List Nat
  utf8Decode : List Nat → String
  jsonParse : String → Option Json

/-- The webhook slice of the validated constructor config
    (this.webhookConfig): secretKey is null or a string; header names
    default to x-axcess-iv and x-axcess-signature. -/
structure WebhookCfg where
  secretKey : Option String
  ivHeaderName : String := "x-axcess-iv"
  sigHeaderName : String := "x-axcess-signature"

/-- Return shape of decryptAndVerifyWebhook. -/
structure WebhookResult where
  decryptedJson : Json
  idempotencyKey : Json
  verified : Bool

/-! ### Crypto Verifier (decryptAndVerifyWebhook, lines 1409-1474) -/

/-- Embeds _coerceKeyTo32Bytes (lines 1881-1896): try base64, then hex
    (0x prefix stripped), each accepted only at exactly 32 bytes, else
    sha256 of the utf8 string.  Neither Buffer.from branch can throw in
    node, so the try/catch wrappers are dead. -/
def coerceKeyTo32Bytes (ext : Ext) (secret : String) : List Nat :=
  let b64 := ext.b64decode secret
  if b64.length = 32 then b64
  else
    let hex := hexDecodeStr (strip0x secret)
    if hex.length = 32 then hex
    else ext.sha256 secret

/-- Embeds crypto.timingSafeEqual: equal length compares, unequal length
    throws a RangeError. -/
def timingSafeEqual (a b : List Nat) : Except String Bool :=
  if a.length = b.length then .ok (a == b) else
    .error "Input buffers must have the same byte length"

/-- Header fetch headers[name] or headers[name.toLowerCase()], as in lines
    1415-1420. -/
def hdrLookup (headers : List (String × String)) (name : String) : Option String :=
  jsOrStr (hdrGet headers name) (hdrGet headers (strToLower name))

/-- Plaintext recovery step of decryptAndVerifyWebhook (lines 1421-1444):
    a trimmed body starting with a brace is taken as plaintext JSON and
    decryption is skipped; otherwise the body is base64-decoded and
    decrypted with AES-256-CBC under the coerced key and the base64 IV
    from the IV header, a missing IV being fatal. -/
def webhookPlaintext (ext : Ext) (cfg : WebhookCfg) (sk : String)
    (rawBody : String) (headers : List (String × String)) : Except String String :=
  let ivBase64 := hdrLookup headers cfg.ivHeaderName
  let iv : Option (List Nat) :=
    match ivBase64 with
    | some s => if strIsEmptyB s then none else some (ext.b64decode s)
    | none => none
  if strStartsWith (strTrim rawBody) "\x7b" then .ok rawBody
  else
    let cipherBuf := ext.b64decode rawBody
    let key := coerceKeyTo32Bytes ext sk
    match iv with
    | none => .error "Missing IV header for webhook decryption"
    | some ivBytes =>
      match ext.aesDecrypt key ivBytes cipherBuf with
      | none => .error "bad decrypt"
      | some pt => .ok (ext.utf8Decode pt)

/-- Signature verification step (lines 1446-1458): when the signature
    header is truthy, HMAC-SHA256 of the plaintext under the coerced key,
    hex-encoded, is compared in constant time against the hex-decoded
    header value (any leading 0x stripped); absent signature verifies. -/
def verifySignature (ext : Ext) (cfg : WebhookCfg) (sk : String)
    (plaintext : String) (headers : List (String × String)) : Except String Bool :=
  match hdrLookup headers cfg.sigHeaderName with
  | some sig =>
    if strIsEmptyB sig then .ok true
    else
      let key := coerceKeyTo32Bytes ext sk
      let h := hexEncodeBytes (ext.hmacSha256 key plaintext)
      timingSafeEqual (hexDecodePairs h) (hexDecodeStr (strip0x sig))
  | none => .ok true

/-- Idempotency key extraction (lines 1461-1465): first of id, eventId,
    payloadId, else null. -/
def idemKeyOf (j : Json) : Json :=
  jsOr (jget j "id") (jsOr (jget j "eventId") (jsOr (jget j "payloadId") .jnull))

/-- Embeds decryptAndVerifyWebhook (lines 1409-1474).  The raw body is
    modelled as a string (a Buffer argument is first converted to utf8 by
    the source).  Thrown errors are the error branch; the catch block
    only logs and rethrows, so it is transparent. -/
def decryptAndVerifyWebhook (ext : Ext) (cfg : WebhookCfg)
    (rawBody : String) (headers : List (String × String)) : Except String WebhookResult :=
  match cfg.secretKey with
  | none => .error "Webhook secretKey is not configured"
  | some sk =>
    if strIsEmptyB sk then .error "Webhook secretKey is not configured"
    else
      match webhookPlaintext ext cfg sk rawBody headers with
      | .error e => .error e
      | .ok plaintext =>
        match verifySignature ext cfg sk plaintext headers with
        | .error e => .error e
        | .ok verified =>
          match ext.jsonParse plaintext with
          | none => .error "Unexpected token in JSON"
          | some decryptedJson => .ok ⟨decryptedJson, idemKeyOf decryptedJson, verified⟩

/-! ### Result Normalizer -/

/-- Return shape of mapResultCodeToUiMessage. -/
structure UiMsg where
  code : String
  uiMessage : String

/-- Embeds mapResultCodeToUiMessage (lines 1808-1821): the input is
    coerced with String(resultCode or empty) and trimmed, then ordered
    literal-prefix rules apply, ending in a catch-all. -/
def mapResultCodeToUiMessage (resultCode : Json) : UiMsg :=
  let code := strTrim (jsToString (jsOr resultCode (.jstr "")))
  if strStartsWith code "000." then ⟨code, "Payment approved."⟩
  else if strStartsWith code "200.300." then ⟨code, "Payment declined by the issuer."⟩
  else if strStartsWith code "100.396." then
    ⟨code, "3-D Secure authentication failed or was canceled."⟩
  else if strStartsWith code "800.400." then
    ⟨code, "Invalid card data. Please check the number and expiry."⟩
  else if strStartsWith code "700." then ⟨code, "Payment expired or timed out."⟩
  else ⟨code, "Payment failed. Please try another card or contact support."⟩

/-- Return shape of _normalizePaymentResult. -/
structure NormalizedResult where
  id : Json
  amount : Option Rat
  currency : Json
  resultCode : Json
  description : Json
  approved : Bool
  pending : Bool

/-- Embeds _normalizePaymentResult (lines 1915-1926).  approved tests the
    String-coerced extracted code for the literal prefix 000.; pending is
    the case-insensitive regex test for pending on the extracted
    description (coerced to a string, as regex test does). -/
def normalizePaymentResult (data : Json) : NormalizedResult :=
  let amount := jsToNumber (jsOr (jget data "amount") (jsOr (jget (jget data "card") "amount") (.jnum 0)))
  let currency := jsOr (jget data "currency") (jsOr (jget (jget data "card") "currency") .jnull)
  let id := jsOr (jget data "id") (jsOr (jget data "ndc") (jsOr (jget data "paymentId") .jnull))
  let resultCode := jsOr (jget (jget data "result") "code") (jsOr (jget data "resultCode") .jnull)
  let description := jsOr (jget (jget data "result") "description") (jsOr (jget data "resultDescription") (.jstr ""))
  let approved := strStartsWith (jsToString (jsOr resultCode (.jstr ""))) "000."
  let pending := strIncludes (strToLower (jsToString description)) "pending"
  ⟨id, amount, currency, resultCode, description, approved, pending⟩

/-! ### Session lifecycle helper -/

/-- Embeds isCheckoutSessionValid (lines 271-276): the session must be
    truthy, its status strictly equal to the string pending and its
    createdAt truthy; then validity is Date.now() minus Number(createdAt)
    strictly below the configured TTL in milliseconds.  now is the
    Date.now() reading, ttlMinutes the configured
    sessionConfig.checkoutExpiryMinutes. -/
def isCheckoutSessionValid (ttlMinutes : Rat) (now : Int) (session : Json) : Bool :=
  let statusIsPending :=
    match jget session "status" with
    | .jstr s => decide (s = "pending")
    | _ => false
  if !truthy session || !statusIsPending || !truthy (jget session "createdAt") then false
  else
    let ms := ttlMinutes * 60 * 1000
    match jsToNumber (jget session "createdAt") with
    | none => false
    | some c => decide ((now : Rat) - c < ms)

/-! ### Event Classifier (mapWebhookEvent, lines 1555-1633) -/

/-- The normalized transaction shape built by mapWebhookEvent. -/
structure NormalizedTxn where
  gateway : String
  gatewayTxnId : Json
  amount : Option Rat
  currency : Json
  resultCode : Json
  approved : Bool
  pending : Bool
  createdAt : Int

/-- Risk signals shape from extractRiskSignals (lines 1828-1835). -/
structure RiskSignals where
  score : Option (Option Rat)
  reason : Option Json
  rules : Option JsonList

/-- Embeds extractRiskSignals: reads payload.risk or payload.fraud. -/
def extractRiskSignals (payload : Json) : RiskSignals :=
  let riskObj := jsOr (jget payload "risk") (jsOr (jget payload "fraud") (.jobj .nil))
  { score := match jget riskObj "score" with
      | .jundefined => none
      | v => some (jsToNumber v)
    reason := (fun r => if truthy r then some r else none) (jget riskObj "reason")
    rules := match jget riskObj "rules" with
      | .jarr l => some l
      | _ => none }

/-- The normalized event shape returned by mapWebhookEvent. -/
structure WebhookEvent where
  type : String
  txn : Option NormalizedTxn := none
  registration : Json := .jundefined
  schedule : Json := .jundefined
  risk : Option RiskSignals := none
  raw : Json

/-- The transaction sub-object payload.payment or payload.transaction or
    payload.txn or the empty object (line 1559). -/
def txnSubOf (payload : Json) : Json :=
  jsOr (jget payload "payment") (jsOr (jget payload "transaction") (jsOr (jget payload "txn") (.jobj .nil)))

/-- Embeds the normalizedTxn construction of mapWebhookEvent (lines
    1560-1571).  The source computes (txn.result?.code or empty
    string).startsWith(000.) without a String(...) coercion, so a truthy
    non-string code value raises a TypeError (startsWith is only a String
    method); the error branch models that throw. -/
def mkNormalizedTxn (now : Int) (payload : Json) : Except String NormalizedTxn :=
  let txn := txnSubOf payload
  let code := jget (jget txn "result") "code"
  match jsOr code (.jstr "") with
  | .jstr s =>
    .ok { gateway := "axcess"
          gatewayTxnId := jsOr (jget txn "id") (jsOr (jget txn "transactionId") .jnull)
          amount := jsToNumber (jsOr (jget txn "amount") (.jnum 0))
          currency := jsOr (jget txn "currency") (.jstr "USD")
          resultCode := jsOr code (jsOr (jget txn "resultCode") .jnull)
          approved := strStartsWith s "000."
          pending := strIncludes (strToLower (jsToString (jsOr (jget (jget txn "result") "description") (.jstr "")))) "pending"
          createdAt := now }
  | _ => .error "TypeError: startsWith is not a function"

/-- Embeds mapWebhookEvent (lines 1555-1633): lower-cased type string,
    always-computed normalized transaction, then the ordered substring
    classification.  A TypeError from the transaction build propagates. -/
def mapWebhookEvent (now : Int) (payload : Json) : Except String WebhookEvent :=
  let t := strToLower (jsToString (jsOr (jget payload "type") (jsOr (jget payload "eventType") (.jstr ""))))
  match mkNormalizedTxn now payload with
  | .error e => .error e
  | .ok normalizedTxn =>
    let registrationId := jsOr (jget payload "registrationId") (jsOr (jget (txnSubOf payload) "registrationId") .jnull)
    let schedule := jsOr (jget payload "schedule") (jsOr (jget payload "subscription") .jnull)
    let risk := extractRiskSignals payload
    .ok <|
    if strIncludes t "payment" && normalizedTxn.approved then
      { type := "payment_success", txn := some normalizedTxn
        registration := if truthy registrationId then .jobj (.cons "registrationId" registrationId .nil) else .jnull
        raw := payload }
    else if strIncludes t "payment" && !normalizedTxn.approved && !normalizedTxn.pending then
      { type := "payment_failed", txn := some normalizedTxn, raw := payload }
    else if strIncludes t "refund" then
      { type := "refund", txn := some normalizedTxn, raw := payload }
    else if strIncludes t "chargeback" then
      { type := "chargeback", txn := some normalizedTxn, raw := payload }
    else if strIncludes t "registration" && strIncludes t "create" then
      { type := "registration_created", registration := .jobj (.cons "registrationId" registrationId .nil), raw := payload }
    else if strIncludes t "registration" && (strIncludes t "update" || strIncludes t "upgrade") then
      { type := "registration_updated", registration := .jobj (.cons "registrationId" registrationId .nil), raw := payload }
    else if strIncludes t "schedule" || strIncludes t "subscription" then
      if strIncludes t "cancel" then
        { type := "schedule_canceled", schedule := schedule, raw := payload }
      else if strIncludes t "reschedul" then
        { type := "schedule_rescheduled", schedule := schedule, raw := payload }
      else
        { type := "schedule_created", schedule := schedule, raw := payload }
    else if strIncludes t "risk" then
      if strIncludes t "flag" then
        { type := "risk_flagged", risk := some risk, raw := payload }
      else
        { type := "risk_cleared", risk := some risk, raw := payload }
    else
      { type := "unknown", raw := payload }

/-- The event type of a classification result, for stating claims. -/
def eventTypeOf (r : Except String WebhookEvent) : Option String :=
  match r with
  | .ok e => some e.type
  | .error _ => none

/-! ### Event Router (handleWebhook and handlers, lines 1482-1742),
    modelled as the ordered trace of persistence-facade calls attempted.
    The facade methods are invoked with optional-call syntax and modelled
    as always-recording no-ops; their record payload fields that no claim
    inspects (amounts, timestamps) are not replayed into the trace. -/

/-- One persistence-facade or logging call. -/
inductive SvcCall where
  | saveWebhook (verified : Bool) (idempotencyKey : Json)
  | saveTransaction (status : String) (uiMessage : Option String)
  | saveToken (id : Json)
  | updateToken (id : Json)
  | grantAccess
  | denyAccess
  | upsertSchedule (status : String)
  | logRisk
  | logUnmapped

/-- Embeds onPaymentSuccess (lines 1641-1656): success transaction with
    the mapped UI message, token upsert when a registration id rode
    along, then an entitlement grant. -/
def onPaymentSuccess (event : WebhookEvent) : List SvcCall :=
  let ui := match event.txn with
    | some txn => (mapResultCodeToUiMessage txn.resultCode).uiMessage
    | none => (mapResultCodeToUiMessage .jundefined).uiMessage
  [.saveTransaction "success" (some ui)]
  ++ (if truthy (jget event.registration "registrationId") then
        [.saveToken (jget event.registration "registrationId")] else [])
  ++ [.grantAccess]

/-- Embeds onPaymentFailed (lines 1662-1670). -/
def onPaymentFailed (event : WebhookEvent) : List SvcCall :=
  let ui := match event.txn with
    | some txn => (mapResultCodeToUiMessage txn.resultCode).uiMessage
    | none => (mapResultCodeToUiMessage .jundefined).uiMessage
  [.saveTransaction "failed" (some ui), .denyAccess]

/-- Embeds onRefund (lines 1676-1679). -/
def onRefund (_event : WebhookEvent) : List SvcCall :=
  [.saveTransaction "refunded" none, .denyAccess]

/-- Embeds onChargeback (lines 1685-1688). -/
def onChargeback (_event : WebhookEvent) : List SvcCall :=
  [.saveTransaction "chargeback" none, .denyAccess]

/-- Embeds onRegistrationCreated (lines 1694-1702). -/
def onRegistrationCreated (event : WebhookEvent) : List SvcCall :=
  if truthy (jget event.registration "registrationId") then
    [.saveToken (jget event.registration "registrationId")] else []

/-- Embeds onRegistrationUpdated (lines 1703-1711). -/
def onRegistrationUpdated (event : WebhookEvent) : List SvcCall :=
  if truthy (jget event.registration "registrationId") then
    [.updateToken (jget event.registration "registrationId")] else []

/-- Embeds onScheduleEvent (lines 1717-1729). -/
def onScheduleEvent (event : WebhookEvent) : List SvcCall :=
  let status := if event.type = "schedule_canceled" then "canceled"
    else if event.type = "schedule_rescheduled" then "rescheduled"
    else "active"
  [.upsertSchedule status]

/-- The switch of handleWebhook (lines 1497-1535). -/
def routeEvent (event : WebhookEvent) : List SvcCall :=
  if event.type = "payment_success" then onPaymentSuccess event
  else if event.type = "payment_failed" then onPaymentFailed event
  else if event.type = "refund" then onRefund event
  else if event.type = "chargeback" then onChargeback event
  else if event.type = "registration_created" then onRegistrationCreated event
  else if event.type = "registration_updated" then onRegistrationUpdated event
  else if event.type = "schedule_created" || event.type = "schedule_rescheduled"
       || event.type = "schedule_canceled" then onScheduleEvent event
  else if event.type = "risk_flagged" || event.type = "risk_cleared" then [.logRisk]
  else [.logUnmapped]

/-- Embeds handleWebhook (lines 1482-1545): decrypt and verify, append
    the audit record (with the verified flag and idempotency key), then
    classify and route.  A decryption throw yields an empty trace; a
    classification TypeError propagates after the audit save. -/
def handleWebhook (ext : Ext) (cfg : WebhookCfg) (now : Int)
    (rawBody : String) (headers : List (String × String)) :
    Except String Unit × List SvcCall :=
  match decryptAndVerifyWebhook ext cfg rawBody headers with
  | .error e => (.error e, [])
  | .ok r =>
    let pre : List SvcCall := [.saveWebhook r.verified r.idempotencyKey]
    match mapWebhookEvent now r.decryptedJson with
    | .error e => (.error e, pre)
    | .ok event => (.ok (), pre ++ routeEvent event)

/-- Trace discriminators for the claims about handleWebhook. -/
def isSaveWebhookCall : SvcCall → Bool
  | .saveWebhook _ _ => true
  | _ => false

/-- True exactly on saveTransaction calls. -/
def isSaveTxCall : SvcCall → Bool
  | .saveTransaction _ _ => true
  | _ => false

/-- True exactly on saveTransaction calls with the given status. -/
def isSaveTxWithStatus (st : String) : SvcCall → Bool
  | .saveTransaction s _ => decide (s = st)
  | _ => false

/-- True exactly on grantAccess calls. -/
def isGrantCall : SvcCall → Bool
  | .grantAccess => true
  | _ => false

/-! ### Subscription upgrade (upgradeSubscription, lines 1308-1356),
    modelled with a trace of remote gateway interactions.  The three
    downstream operations debitWithRegistrationToken, cancelSubscription
    and createSubscriptionFromToken each begin with an HTTP call, so for
    the claim under verification they are abstracted to single external
    calls that can fail. -/

/-- One remote-gateway interaction attempted by upgradeSubscription. -/
inductive NetCall where
  | debitToken (registrationId : Json)
  | cancelSub (subscriptionId : Json)
  | createSchedule (registrationId : Json)

/-- Modelled from the spec: SafeUtils.sanitizeValidate is imported from
    ../utils/index.js, which is not part of this repository snapshot.
    Per its use sites and the jsdoc shape map, it checks each declared
    field (required flag and type tag) and returns the values unchanged,
    throwing on a validation failure; it performs no network activity.
    Only the field shapes declared by upgradeSubscription (string, float,
    object) are modelled. -/
def sanitizeValidateUpgrade (subscriptionId prorationCharge newRecurring : Json) :
    Except String (Json × Json × Json) :=
  let subOk := match subscriptionId with
    | .jstr s => !(strIsEmptyB s)
    | _ => false
  let chargeOk := (jsToNumber prorationCharge).isSome
  let recOk := match newRecurring with
    | .jobj _ => true
    | _ => false
  if subOk && chargeOk && recOk then .ok (subscriptionId, prorationCharge, newRecurring)
  else .error "sanitizeValidate failed"

/-- Embeds upgradeSubscription (lines 1308-1356): validate, require a
    registration id on newRecurring before the proration debit, then
    debit, cancel the old schedule and create the new one, each remote
    step aborting the run when it throws. -/
def upgradeSubscription (net : NetCall → Except String Json) (params : Json) :
    Except String (String × Json) × List NetCall :=
  match sanitizeValidateUpgrade (jget params "subscriptionId")
      (jget params "prorationCharge") (jget params "newRecurring") with
  | .error e => (.error e, [])
  | .ok (sid, _pc, nr) =>
    let regId := jget nr "registrationId"
    if !truthy regId then
      (.error "upgradeSubscription requires newRecurring.registrationId for proration charge", [])
    else
      match net (.debitToken regId) with
      | .error e => (.error e, [.debitToken regId])
      | .ok _ =>
        match net (.cancelSub sid) with
        | .error e => (.error e, [.debitToken regId, .cancelSub sid])
        | .ok _ =>
          match net (.createSchedule regId) with
          | .error e => (.error e, [.debitToken regId, .cancelSub sid, .createSchedule regId])
          | .ok res =>
            (.ok ("upgrade_scheduled", jsOr (jget res "scheduleId") .jnull),
             [.debitToken regId, .cancelSub sid, .createSchedule regId])

/-! ### Concrete fixtures for witnesses and counterexamples -/

/-- The payment.refund payload from the repository test suite
    (PaymentGatewayAxcess.test.js, mapWebhookEvent block), with the
    approved result code of the same suite. -/
def refundPayload : Json :=
  .jobj (.ofList [("type", .jstr "payment.refund"),
    ("payment", .jobj (.ofList [("result",
      .jobj (.ofList [("code", .jstr "000.100.110")]))]))])

/-- A plaintext payment.success webhook body. -/
def successBody : String :=
  "\x7b\x22type\x22:\x22payment.success\x22,\x22payment\x22:\x7b\x22id\x22:\x22TX-OK\x22,\x22result\x22:\x7b\x22code\x22:\x22000.100.110\x22\x7d\x7d\x7d"

/-- The parsed form of successBody. -/
def successPayload : Json :=
  .jobj (.ofList [("type", .jstr "payment.success"),
    ("payment", .jobj (.ofList [("id", .jstr "TX-OK"),
      ("result", .jobj (.ofList [("code", .jstr "000.100.110")]))]))])

/-- A concrete external-collaborator instance: a constant-digest keyed
    hash (digest length 32, as for HMAC-SHA256) and a JSON parser oracle
    for the two concrete bodies the witnesses feed in. -/
def extTest : Ext :=
  { b64decode := fun _ => []
    aesDecrypt := fun _ _ _ => none
    sha256 := fun _ => List.replicate 32 0
    hmacSha256 := fun _ _ => List.replicate 32 0
    utf8Decode := fun _ => ""
    jsonParse := fun s =>
      if s = successBody then some successPayload
      else if s = "\x7b\x7d" then some (.jobj .nil) else none }

/-- The webhook config of the repository test suite. -/
def cfgTest : WebhookCfg := { secretKey := some "test-secret-for-webhooks" }

/-- The twelve event types the spec enumerates for mapWebhookEvent. -/
def twelveEventTypes : List String :=
  ["payment_success", "payment_failed", "refund", "chargeback",
   "registration_created", "registration_updated", "schedule_created",
   "schedule_rescheduled", "schedule_canceled", "risk_flagged",
   "risk_cleared", "unknown"]

/-- True when the value that mapWebhookEvent calls startsWith on (the
    transaction result code after the or-empty-string fallback) is a
    string, i.e. when the result code field is a string or falsy. -/
def codeIsStrOrFalsy (p : Json) : Bool :=
  match jsOr (jget (jget (txnSubOf p) "result") "code") (.jstr "") with
  | .jstr _ => true
  | _ => false

/-! ### Claim C1 -/

/-- C1: the claim says a payload with lower-cased type payment.refund and
    an approved (000.-prefixed) result code classifies as refund.  The
    code instead matches its first rule, type contains payment AND
    approved, and returns payment_success; the refund rule is never
    reached.  The repository test suite asserts refund for exactly this
    payload, so the code contradicts its own tests. -/
theorem mapWebhookEvent_payment_refund_approved_misroutes :
    eventTypeOf (mapWebhookEvent 0 refundPayload) = some "payment_success" ∧
    eventTypeOf (mapWebhookEvent 0 refundPayload) ≠ some "refund" := by
  constructor
  · rfl
  · decide

/-! ### Claim C7 -/

/-- C7 counterexample: mapResultCodeToUiMessage does not echo its input
    as the code field: the input is trimmed first, so an input with
    surrounding whitespace comes back changed. -/
theorem mapResultCodeToUiMessage_not_echo_input :
    (mapResultCodeToUiMessage (.jstr " 000.100.110 ")).code ≠ " 000.100.110 " := by
  decide

/-- C7 amended: mapResultCodeToUiMessage is total on strings, always
    returns a non-empty uiMessage (the last rule is a catch-all), and
    echoes the trimmed input as the code field. -/
theorem mapResultCodeToUiMessage_total (s : String) :
    (mapResultCodeToUiMessage (.jstr s)).uiMessage ≠ "" ∧
    (mapResultCodeToUiMessage (.jstr s)).code = strTrim s := by
  have hco : jsToString (jsOr (.jstr s) (.jstr "")) = s := by
    by_cases h : s = ""
    · subst h; rfl
    · have hb : strIsEmptyB s = false := by
        cases hb2 : strIsEmptyB s with
        | false => rfl
        | true => exact absurd ((strIsEmptyB_iff s).mp hb2) h
      simp [jsOr, truthy, hb, jsToString]
  simp only [mapResultCodeToUiMessage, hco]
  constructor
  · repeat' split
    all_goals simp
  · repeat' split
    all_goals rfl

/-! ### Claim C10 -/

/-- C10 counterexample: mapWebhookEvent is not total over JSON object
    payloads: a truthy non-string result code (here the number 5) reaches
    startsWith without a String coercion and raises a TypeError. -/
theorem mapWebhookEvent_throws_on_numeric_code :
    mapWebhookEvent 0 (.jobj (.ofList [("payment", .jobj (.ofList [("result", .jobj (.ofList [("code", .jnum 5)]))]))]))
      = .error "TypeError: startsWith is not a function" := rfl

/-- C10 amended: for every payload whose transaction result code field is
    a string or falsy (after the or-empty-string fallback), mapWebhookEvent
    returns without throwing, and the returned type is one of the twelve
    spec event kinds. -/
theorem mapWebhookEvent_total_type_mem (now : Int) (p : Json)
    (h : codeIsStrOrFalsy p = true) :
    ∃ e, mapWebhookEvent now p = .ok e ∧ e.type ∈ twelveEventTypes := by
  unfold codeIsStrOrFalsy at h
  simp only [mapWebhookEvent, mkNormalizedTxn]
  cases hc : jsOr (jget (jget (txnSubOf p) "result") "code") (.jstr "") with
  | jstr s =>
    refine ⟨_, rfl, ?_⟩
    dsimp only
    repeat' split
    all_goals simp [twelveEventTypes]
  | jundefined => rw [hc] at h; simp at h
  | jnull => rw [hc] at h; simp at h
  | jbool b => rw [hc] at h; simp at h
  | jnum q => rw [hc] at h; simp at h
  | jarr l => rw [hc] at h; simp at h
  | jobj f => rw [hc] at h; simp at h

/-- C10 witness: the empty object payload satisfies the hypothesis and
    classifies to one of the twelve kinds. -/
theorem mapWebhookEvent_total_type_mem_witness :
    ∃ e, mapWebhookEvent 0 (.jobj .nil) = .ok e ∧ e.type ∈ twelveEventTypes :=
  mapWebhookEvent_total_type_mem 0 (.jobj .nil) rfl

/-! ### Claim C2 -/

/-- A gateway response whose approved-family code carries a pending
    description, as the real gateway emits for code 000.200.000. -/
def pendingApprovedData : Json :=
  .jobj (.ofList [("result", .jobj (.ofList [("code", .jstr "000.200.000"),
    ("description", .jstr "Transaction pending")]))])

/-- A string with the literal prefix 000. is not empty. -/
theorem strStartsWith_000_ne_empty (s : String) (h : strStartsWith s "000." = true) :
    strIsEmptyB s = false := by
  unfold strStartsWith at h
  unfold strIsEmptyB
  cases hd : s.data with
  | nil => rw [hd] at h; simp [List.isPrefixOf] at h
  | cons a t => simp

/-- C2 counterexample: _normalizePaymentResult on a payload whose
    extracted result code starts with 000. but whose description contains
    pending yields approved = true AND pending = true, so the claimed
    implication (pending = false) and the claimed mutual exclusion both
    fail. -/
theorem normalizePaymentResult_approved_and_pending :
    (normalizePaymentResult pendingApprovedData).resultCode = .jstr "000.200.000" ∧
    (normalizePaymentResult pendingApprovedData).approved = true ∧
    (normalizePaymentResult pendingApprovedData).pending = true :=
  ⟨rfl, rfl, rfl⟩

/-- C2 amended: in _normalizePaymentResult, an extracted result code with
    the literal prefix 000. forces approved = true, and pending equals
    exactly the case-insensitive pending test on the extracted
    description, independent of approved (so the two flags are not
    mutually exclusive); in the transactions normalized by
    mapWebhookEvent, approved = true forces resultCode to be a string
    with the 000. prefix (approved is computed from the result.code field
    only). -/
theorem normalized_approved_pending_characterization :
    (∀ d r, normalizePaymentResult d = r →
      (strStartsWith (jsToString (jsOr r.resultCode (.jstr ""))) "000." = true → r.approved = true) ∧
      r.pending = strIncludes (strToLower (jsToString r.description)) "pending")
    ∧ (∀ (now : Int) (p : Json) (t : NormalizedTxn), mkNormalizedTxn now p = .ok t →
        t.approved = true → ∃ s, t.resultCode = .jstr s ∧ strStartsWith s "000." = true) := by
  constructor
  · intro d r h
    subst h
    exact ⟨fun h2 => h2, rfl⟩
  · intro now p t h happ
    simp only [mkNormalizedTxn] at h
    cases hc : jsOr (jget (jget (txnSubOf p) "result") "code") (.jstr "") with
    | jstr s =>
      rw [hc] at h
      cases h
      unfold jsOr at hc
      by_cases ht : truthy (jget (jget (txnSubOf p) "result") "code") = true
      · rw [if_pos ht] at hc
        refine ⟨s, ?_, happ⟩
        have hne : strIsEmptyB s = false := strStartsWith_000_ne_empty s happ
        simp only [hc, jsOr, truthy, hne]
        rfl
      · rw [if_neg ht] at hc
        cases hc
        simp [strStartsWith, List.isPrefixOf] at happ
    | jundefined => rw [hc] at h; cases h
    | jnull => rw [hc] at h; cases h
    | jbool b => rw [hc] at h; cases h
    | jnum q => rw [hc] at h; cases h
    | jarr l => rw [hc] at h; cases h
    | jobj f => rw [hc] at h; cases h

/-- C2 witness: the characterization applied at concrete inputs: the
    pending-approved response has approved = true, and the normalized
    transaction of the approved refund payload stores a 000.-prefixed
    string result code. -/
theorem normalized_approved_pending_characterization_witness :
    (normalizePaymentResult pendingApprovedData).approved = true ∧
    (∃ s, ({ gateway := "axcess", gatewayTxnId := .jnull, amount := some 0,
             currency := .jstr "USD", resultCode := .jstr "000.100.110",
             approved := true, pending := false, createdAt := 0 } : NormalizedTxn).resultCode
        = .jstr s ∧ strStartsWith s "000." = true) := by
  constructor
  · exact (normalized_approved_pending_characterization.1 pendingApprovedData _ rfl).1 (by rfl)
  · exact normalized_approved_pending_characterization.2 0 refundPayload _ (by rfl) (by rfl)

/-! ### Claim C8 -/

/-- C8: isCheckoutSessionValid is true exactly when the session status is
    the string pending and the elapsed time since its (positive, numeric)
    creation timestamp is strictly below the configured TTL in
    milliseconds. -/
theorem isCheckoutSessionValid_iff (ttl : Rat) (now : Int) (s : Json) (c : Rat)
    (hobj : truthy s = true)
    (hcreated : jget s "createdAt" = .jnum c)
    (hpos : 0 < c) :
    isCheckoutSessionValid ttl now s = true ↔
      (jget s "status" = .jstr "pending" ∧ (now : Rat) - c < ttl * 60 * 1000) := by
  have hcne : (c != 0) = true := by
    simp [bne_iff_ne]
    exact ne_of_gt hpos
  have hct : truthy (Json.jnum c) = true := by
    simp only [truthy]
    exact hcne
  unfold isCheckoutSessionValid
  rw [hcreated, hobj, hct]
  simp only [jsToNumber, Bool.not_true, Bool.false_or, Bool.or_false]
  cases hst : jget s "status" with
  | jstr s2 =>
    by_cases h2 : s2 = "pending"
    · subst h2
      simp
    · simp [h2]
  | jundefined => simp
  | jnull => simp
  | jbool b => simp
  | jnum q => simp
  | jarr l => simp
  | jobj f => simp

/-- A pending checkout session created at time 100000. -/
def pendingSession : Json :=
  .jobj (.ofList [("status", .jstr "pending"), ("createdAt", .jnum 100000)])

/-- C8 witness (spec scenario D): with TTL 25 minutes, the session is
    invalid 61 minutes after creation and valid 1 minute after
    creation. -/
theorem isCheckoutSessionValid_iff_witness :
    isCheckoutSessionValid 25 3760000 pendingSession = false ∧
    isCheckoutSessionValid 25 160000 pendingSession = true := by
  have h1 := isCheckoutSessionValid_iff 25 3760000 pendingSession 100000 rfl rfl (by norm_num)
  have h2 := isCheckoutSessionValid_iff 25 160000 pendingSession 100000 rfl rfl (by norm_num)
  constructor
  · cases hv : isCheckoutSessionValid 25 3760000 pendingSession with
    | false => rfl
    | true => exact absurd (h1.mp hv).2 (by norm_num)
  · exact h2.mpr ⟨rfl, by norm_num⟩

/-! ### Claim C9 -/

/-- C9: when the newRecurring argument has no truthy registrationId,
    upgradeSubscription throws (either in validation or at the explicit
    registration-id guard) before any remote call: the result is an error
    and the network trace is empty, so remote and persisted state are
    untouched. -/
theorem upgradeSubscription_missing_registrationId
    (net : NetCall → Except String Json) (params : Json)
    (h : truthy (jget (jget params "newRecurring") "registrationId") = false) :
    (∃ e, (upgradeSubscription net params).1 = .error e) ∧
    (upgradeSubscription net params).2 = [] := by
  unfold upgradeSubscription
  cases hs : sanitizeValidateUpgrade (jget params "subscriptionId")
      (jget params "prorationCharge") (jget params "newRecurring") with
  | error e => exact ⟨⟨e, rfl⟩, rfl⟩
  | ok trip =>
    obtain ⟨sid, pc, nr⟩ := trip
    have hnr : nr = jget params "newRecurring" := by
      simp only [sanitizeValidateUpgrade] at hs
      split at hs
      · simp only [Except.ok.injEq, Prod.mk.injEq] at hs
        exact hs.2.2.symm
      · cases hs
    subst hnr
    dsimp only
    rw [h]
    simp

/-- C9 witness: a call whose newRecurring carries no registrationId
    reaches the guard and performs no network call. -/
theorem upgradeSubscription_missing_registrationId_witness :
    (∃ e, (upgradeSubscription (fun _ => .ok .jnull)
      (.jobj (.ofList [("subscriptionId", .jstr "SUB-OLD"), ("prorationCharge", .jnum 2),
        ("newRecurring", .jobj (.ofList [("amount", .jnum 14)]))]))).1 = .error e) ∧
    (upgradeSubscription (fun _ => .ok .jnull)
      (.jobj (.ofList [("subscriptionId", .jstr "SUB-OLD"), ("prorationCharge", .jnum 2),
        ("newRecurring", .jobj (.ofList [("amount", .jnum 14)]))]))).2 = [] :=
  upgradeSubscription_missing_registrationId _ _ rfl

/-! ### Claim C5 -/

/-- C5: when no signature header is present, under the configured name or
    its lower-cased form, every returned (non-throwing) result of
    decryptAndVerifyWebhook has verified = true: the adapter fails open
    when unsigned. -/
theorem decryptAndVerifyWebhook_unsigned_verified
    (ext : Ext) (cfg : WebhookCfg) (rawBody : String) (headers : List (String × String))
    (h1 : hdrGet headers cfg.sigHeaderName = none)
    (h2 : hdrGet headers (strToLower cfg.sigHeaderName) = none) :
    ∀ r, decryptAndVerifyWebhook ext cfg rawBody headers = .ok r → r.verified = true := by
  intro r h
  unfold decryptAndVerifyWebhook at h
  cases hsk : cfg.secretKey with
  | none => rw [hsk] at h; cases h
  | some sk =>
    rw [hsk] at h
    dsimp only at h
    by_cases he : strIsEmptyB sk = true
    · rw [if_pos he] at h; cases h
    · rw [if_neg he] at h
      cases hp : webhookPlaintext ext cfg sk rawBody headers with
      | error e =>
        simp only [hp] at h
        exact Except.noConfusion h
      | ok pt =>
        simp only [hp] at h
        have hv : verifySignature ext cfg sk pt headers = .ok true := by
          unfold verifySignature hdrLookup
          rw [h1, h2]
          rfl
        simp only [hv] at h
        cases hj : ext.jsonParse pt with
        | none =>
          simp only [hj] at h
          exact Except.noConfusion h
        | some j =>
          simp only [hj] at h
          cases h
          rfl

/-- C5 witness: a plaintext unsigned delivery returns with
    verified = true. -/
theorem decryptAndVerifyWebhook_unsigned_verified_witness :
    decryptAndVerifyWebhook extTest cfgTest "\x7b\x7d" [] =
      .ok ⟨.jobj .nil, .jnull, true⟩ ∧
    ({ decryptedJson := .jobj .nil, idempotencyKey := .jnull,
       verified := true } : WebhookResult).verified = true :=
  ⟨by rfl,
   decryptAndVerifyWebhook_unsigned_verified extTest cfgTest "\x7b\x7d" [] rfl rfl
     ⟨.jobj .nil, .jnull, true⟩ (by rfl)⟩

/-! ### Claim C4 -/

/-- C4: first, on a body whose trimmed text starts with a brace, the
    result is the same whatever the cipher does and whatever IV material
    the headers carry (only the signature lookup matters): the body is
    taken as plaintext and no decryption happens, so a missing IV header
    is no error there.  Second, on a body that does not start with a
    brace, a missing (or empty) IV header makes the call throw the
    missing-IV error, with no partial result.  Third, on a body that
    does not start with a brace and a truthy IV header, the result
    factors through the cipher applied to the coerced 32-byte key, the
    base64-decoded IV header value and the base64-decoded body: the
    ciphertext path really base64-decodes and decrypts with the derived
    key and header IV (a thrown cipher error propagates, a decrypt
    result continues as the utf8 plaintext of the pipeline). -/
theorem decryptAndVerifyWebhook_plaintext_vs_cipher :
    (∀ (ext : Ext) (f : List Nat → List Nat → List Nat → Option (List Nat))
       (cfg : WebhookCfg) (rawBody : String) (h1 h2 : List (String × String)),
       strStartsWith (strTrim rawBody) "\x7b" = true →
       hdrLookup h1 cfg.sigHeaderName = hdrLookup h2 cfg.sigHeaderName →
       decryptAndVerifyWebhook { ext with aesDecrypt := f } cfg rawBody h1 =
         decryptAndVerifyWebhook ext cfg rawBody h2)
    ∧ (∀ (ext : Ext) (cfg : WebhookCfg) (rawBody : String)
         (headers : List (String × String)) (sk : String),
       cfg.secretKey = some sk → strIsEmptyB sk = false →
       strStartsWith (strTrim rawBody) "\x7b" = false →
       strTruthy (hdrLookup headers cfg.ivHeaderName) = false →
       decryptAndVerifyWebhook ext cfg rawBody headers =
         .error "Missing IV header for webhook decryption")
    ∧ (∀ (ext : Ext) (cfg : WebhookCfg) (rawBody : String)
         (headers : List (String × String)) (sk ivs : String),
       cfg.secretKey = some sk → strIsEmptyB sk = false →
       strStartsWith (strTrim rawBody) "\x7b" = false →
       hdrLookup headers cfg.ivHeaderName = some ivs → strIsEmptyB ivs = false →
       decryptAndVerifyWebhook ext cfg rawBody headers =
         (match ext.aesDecrypt (coerceKeyTo32Bytes ext sk) (ext.b64decode ivs)
             (ext.b64decode rawBody) with
          | none => .error "bad decrypt"
          | some pt =>
            match verifySignature ext cfg sk (ext.utf8Decode pt) headers with
            | .error e => .error e
            | .ok verified =>
              match ext.jsonParse (ext.utf8Decode pt) with
              | none => .error "Unexpected token in JSON"
              | some j => .ok ⟨j, idemKeyOf j, verified⟩)) := by
  refine ⟨?_, ?_, ?_⟩
  · intro ext f cfg rawBody h1 h2 hb hagree
    unfold decryptAndVerifyWebhook
    cases cfg.secretKey with
    | none => rfl
    | some sk =>
      dsimp only
      by_cases he : strIsEmptyB sk = true
      · simp [he]
      · rw [if_neg he, if_neg he]
        have hp1 : webhookPlaintext { ext with aesDecrypt := f } cfg sk rawBody h1 = .ok rawBody := by
          unfold webhookPlaintext
          simp only [hb, if_true]
        have hp2 : webhookPlaintext ext cfg sk rawBody h2 = .ok rawBody := by
          unfold webhookPlaintext
          simp only [hb, if_true]
        rw [hp1, hp2]
        have hv : verifySignature { ext with aesDecrypt := f } cfg sk rawBody h1 =
            verifySignature ext cfg sk rawBody h2 := by
          unfold verifySignature
          rw [hagree]
          rfl
        dsimp only
        rw [hv]
  · intro ext cfg rawBody headers sk hsk hske hb hiv
    unfold decryptAndVerifyWebhook
    rw [hsk]
    dsimp only
    rw [if_neg (by simp [hske])]
    have hp : webhookPlaintext ext cfg sk rawBody headers =
        .error "Missing IV header for webhook decryption" := by
      unfold webhookPlaintext
      simp only [hb, Bool.false_eq_true, if_false]
      cases hl : hdrLookup headers cfg.ivHeaderName with
      | none => rfl
      | some s =>
        rw [hl] at hiv
        unfold strTruthy at hiv
        simp only [Bool.not_eq_false'] at hiv
        simp only [hiv, if_true]
    rw [hp]
  · intro ext cfg rawBody headers sk ivs hsk hske hb hiv hivne
    have hpt : webhookPlaintext ext cfg sk rawBody headers =
        (match ext.aesDecrypt (coerceKeyTo32Bytes ext sk) (ext.b64decode ivs)
            (ext.b64decode rawBody) with
         | none => .error "bad decrypt"
         | some pt => .ok (ext.utf8Decode pt)) := by
      unfold webhookPlaintext
      rw [hiv]
      dsimp only
      rw [if_neg (by rw [hb]; simp), if_neg (by rw [hivne]; simp)]
    unfold decryptAndVerifyWebhook
    rw [hsk]
    dsimp only
    rw [if_neg (by simp [hske]), hpt]
    cases ha : ext.aesDecrypt (coerceKeyTo32Bytes ext sk) (ext.b64decode ivs)
        (ext.b64decode rawBody) with
    | none => rfl
    | some pt => rfl

/-- C4 witness: a plaintext body gives the same result under a changed
    cipher and dropped IV header; a non-brace body with no IV header
    throws the missing-IV error; and a non-brace body with an IV header
    routes through the cipher on the derived key, decoded IV and decoded
    body. -/
theorem decryptAndVerifyWebhook_plaintext_vs_cipher_witness :
    (decryptAndVerifyWebhook { extTest with aesDecrypt := fun _ _ _ => some [1] }
        cfgTest "\x7b\x7d" [("x-axcess-iv", "aGVsbG8=")]
      = decryptAndVerifyWebhook extTest cfgTest "\x7b\x7d" []) ∧
    decryptAndVerifyWebhook extTest cfgTest "ciphertext" []
      = .error "Missing IV header for webhook decryption" ∧
    decryptAndVerifyWebhook extTest cfgTest "ciphertext" [("x-axcess-iv", "aGVsbG8=")]
      = (match extTest.aesDecrypt
          (coerceKeyTo32Bytes extTest "test-secret-for-webhooks")
          (extTest.b64decode "aGVsbG8=") (extTest.b64decode "ciphertext") with
         | none => .error "bad decrypt"
         | some pt =>
           match verifySignature extTest cfgTest "test-secret-for-webhooks"
               (extTest.utf8Decode pt) [("x-axcess-iv", "aGVsbG8=")] with
           | .error e => .error e
           | .ok verified =>
             match extTest.jsonParse (extTest.utf8Decode pt) with
             | none => .error "Unexpected token in JSON"
             | some j => .ok ⟨j, idemKeyOf j, verified⟩) :=
  ⟨decryptAndVerifyWebhook_plaintext_vs_cipher.1 extTest _ cfgTest _ _ _ rfl rfl,
   decryptAndVerifyWebhook_plaintext_vs_cipher.2.1 extTest cfgTest "ciphertext" [] _ rfl rfl rfl rfl,
   decryptAndVerifyWebhook_plaintext_vs_cipher.2.2 extTest cfgTest "ciphertext"
     [("x-axcess-iv", "aGVsbG8=")] "test-secret-for-webhooks" "aGVsbG8=" rfl rfl rfl rfl rfl⟩

/-! ### Claim C3 -/

/-- A 64-hex-character signature value that matches no all-zero digest. -/
def mismatchSig : String := String.mk (List.replicate 64 'f')

/-- C3 counterexample: a signature header whose hex decoding is shorter
    than the 32-byte digest makes decryptAndVerifyWebhook throw (the
    timingSafeEqual length error) instead of returning verified = false,
    although the value does not match the expected HMAC hex digest. -/
theorem decryptAndVerifyWebhook_short_signature_throws :
    decryptAndVerifyWebhook extTest cfgTest "\x7b\x7d" [("x-axcess-signature", "00")]
      = .error "Input buffers must have the same byte length" ∧
    "00" ≠ String.mk (hexEncodeBytes (extTest.hmacSha256
        (coerceKeyTo32Bytes extTest "test-secret-for-webhooks") "\x7b\x7d")) := by
  constructor
  · rfl
  · decide

/-- C3 amended: on a delivery whose plaintext step and JSON parse
    succeed, a present signature header is hex-decoded (after stripping
    an optional 0x) and compared in constant time to the HMAC digest: if
    the decoded value has the digest byte length (32), the call returns,
    with verified the byte equality (so false on every equal-length
    mismatch); if the decoded value has any other length, the call throws
    the timingSafeEqual length error instead of returning
    verified = false. -/
theorem decryptAndVerifyWebhook_signature_mismatch
    (ext : Ext) (cfg : WebhookCfg) (rawBody : String)
    (headers : List (String × String)) (sk pt sig : String) (j : Json)
    (hlen : ∀ k m, (ext.hmacSha256 k m).length = 32)
    (hbytes : ∀ k m b, b ∈ ext.hmacSha256 k m → b < 256)
    (hsk : cfg.secretKey = some sk) (hske : strIsEmptyB sk = false)
    (hpt : webhookPlaintext ext cfg sk rawBody headers = .ok pt)
    (hsig : hdrLookup headers cfg.sigHeaderName = some sig)
    (hsige : strIsEmptyB sig = false)
    (hparse : ext.jsonParse pt = some j) :
    decryptAndVerifyWebhook ext cfg rawBody headers =
      (if (hexDecodeStr (strip0x sig)).length = 32 then
        .ok ⟨j, idemKeyOf j,
          ext.hmacSha256 (coerceKeyTo32Bytes ext sk) pt == hexDecodeStr (strip0x sig)⟩
      else .error "Input buffers must have the same byte length") := by
  have hrt : hexDecodePairs (hexEncodeBytes (ext.hmacSha256 (coerceKeyTo32Bytes ext sk) pt))
      = ext.hmacSha256 (coerceKeyTo32Bytes ext sk) pt :=
    hexDecode_hexEncode _ (fun b hb => hbytes _ _ b hb)
  unfold decryptAndVerifyWebhook
  rw [hsk]
  dsimp only
  rw [if_neg (by simp [hske])]
  simp only [hpt]
  have hv : verifySignature ext cfg sk pt headers =
      timingSafeEqual (ext.hmacSha256 (coerceKeyTo32Bytes ext sk) pt)
        (hexDecodeStr (strip0x sig)) := by
    unfold verifySignature
    rw [hsig]
    dsimp only
    rw [if_neg (by simp [hsige]), hrt]
  simp only [hv]
  unfold timingSafeEqual
  rw [hlen]
  by_cases hl32 : (hexDecodeStr (strip0x sig)).length = 32
  · rw [if_pos hl32.symm, if_pos hl32]
    simp only [hparse]
  · rw [if_neg (fun hx => hl32 hx.symm), if_neg hl32]

/-- C3 witness: a present, equal-length, non-matching signature yields a
    returned result with verified = false. -/
theorem decryptAndVerifyWebhook_signature_mismatch_witness :
    decryptAndVerifyWebhook extTest cfgTest "\x7b\x7d" [("x-axcess-signature", mismatchSig)]
      = .ok ⟨.jobj .nil, .jnull, false⟩ := by
  have h := decryptAndVerifyWebhook_signature_mismatch extTest cfgTest "\x7b\x7d"
    [("x-axcess-signature", mismatchSig)] "test-secret-for-webhooks" "\x7b\x7d"
    mismatchSig (.jobj .nil)
    (fun k m => by simp [extTest])
    (fun k m b hb => by simp [extTest, List.mem_replicate] at hb; omega)
    rfl rfl rfl rfl rfl rfl
  rw [h]
  rfl

/-! ### Claim C6 -/

/-- C6: on a delivery whose decrypted payload has type payment.success
    and an approved (000.-prefixed) result code, handleWebhook succeeds
    and its facade-call trace starts with exactly one webhook-audit save,
    recording the verified flag and idempotency key, before any event
    handler runs; it contains exactly one transaction save, with status
    success; and at least one entitlement grant. -/
theorem handleWebhook_payment_success_trace
    (ext : Ext) (cfg : WebhookCfg) (now : Int) (rawBody : String)
    (headers : List (String × String)) (r : WebhookResult) (c : String)
    (hdec : decryptAndVerifyWebhook ext cfg rawBody headers = .ok r)
    (htype : jget r.decryptedJson "type" = .jstr "payment.success")
    (hcode : jget (jget (txnSubOf r.decryptedJson) "result") "code" = .jstr c)
    (happr : strStartsWith c "000." = true) :
    (handleWebhook ext cfg now rawBody headers).1 = .ok () ∧
    (handleWebhook ext cfg now rawBody headers).2.head? =
      some (.saveWebhook r.verified r.idempotencyKey) ∧
    ((handleWebhook ext cfg now rawBody headers).2.filter isSaveWebhookCall).length = 1 ∧
    ((handleWebhook ext cfg now rawBody headers).2.filter (isSaveTxWithStatus "success")).length = 1 ∧
    ((handleWebhook ext cfg now rawBody headers).2.filter isSaveTxCall).length = 1 ∧
    1 ≤ ((handleWebhook ext cfg now rawBody headers).2.filter isGrantCall).length := by
  have hcne : strIsEmptyB c = false := strStartsWith_000_ne_empty c happr
  obtain ⟨ntxn, hmk, hap⟩ :
      ∃ ntxn, mkNormalizedTxn now r.decryptedJson = .ok ntxn ∧ ntxn.approved = true := by
    simp only [mkNormalizedTxn]
    rw [hcode]
    have hj : jsOr (Json.jstr c) (Json.jstr "") = Json.jstr c := by
      simp [jsOr, truthy, hcne]
    rw [hj]
    exact ⟨_, rfl, happr⟩
  have hmap : mapWebhookEvent now r.decryptedJson = .ok
      { type := "payment_success", txn := some ntxn
        registration :=
          if truthy (jsOr (jget r.decryptedJson "registrationId")
              (jsOr (jget (txnSubOf r.decryptedJson) "registrationId") .jnull)) then
            .jobj (.cons "registrationId"
              (jsOr (jget r.decryptedJson "registrationId")
                (jsOr (jget (txnSubOf r.decryptedJson) "registrationId") .jnull)) .nil)
          else .jnull
        raw := r.decryptedJson } := by
    simp only [mapWebhookEvent]
    rw [hmk]
    dsimp only
    rw [htype]
    have ht : jsOr (Json.jstr "payment.success")
        (jsOr (jget r.decryptedJson "eventType") (Json.jstr "")) = Json.jstr "payment.success" := rfl
    rw [ht]
    have hA : strIncludes (strToLower (jsToString (Json.jstr "payment.success"))) "payment" = true := rfl
    rw [hA, hap]
    rfl
  unfold handleWebhook
  rw [hdec]
  dsimp only
  rw [hmap]
  dsimp only
  have hroute : ∀ e : WebhookEvent, e.type = "payment_success" →
      routeEvent e = onPaymentSuccess e := by
    intro e he
    unfold routeEvent
    rw [he]
    rfl
  rw [hroute _ rfl]
  unfold onPaymentSuccess
  dsimp only
  by_cases hreg : truthy (jsOr (jget r.decryptedJson "registrationId")
      (jsOr (jget (txnSubOf r.decryptedJson) "registrationId") .jnull)) = true
  · rw [if_pos hreg]
    rw [if_pos (by rw [show jget (Json.jobj (.cons "registrationId"
      (jsOr (jget r.decryptedJson "registrationId")
        (jsOr (jget (txnSubOf r.decryptedJson) "registrationId") .jnull)) .nil))
      "registrationId" = jsOr (jget r.decryptedJson "registrationId")
        (jsOr (jget (txnSubOf r.decryptedJson) "registrationId") .jnull) from rfl]; exact hreg)]
    exact ⟨rfl, rfl, rfl, rfl, rfl, Nat.le_refl 1⟩
  · rw [if_neg hreg]
    rw [if_neg (by rw [show jget Json.jnull "registrationId" = Json.jundefined from rfl]; simp [truthy])]
    exact ⟨rfl, rfl, rfl, rfl, rfl, Nat.le_refl 1⟩

/-- C6 witness: the concrete plaintext payment.success delivery produces
    the audit save first, one success transaction save and one grant. -/
theorem handleWebhook_payment_success_trace_witness :
    (handleWebhook extTest cfgTest 0 successBody []).1 = .ok () ∧
    (handleWebhook extTest cfgTest 0 successBody []).2.head? =
      some (.saveWebhook true .jnull) ∧
    ((handleWebhook extTest cfgTest 0 successBody []).2.filter isSaveWebhookCall).length = 1 ∧
    ((handleWebhook extTest cfgTest 0 successBody []).2.filter (isSaveTxWithStatus "success")).length = 1 ∧
    ((handleWebhook extTest cfgTest 0 successBody []).2.filter isSaveTxCall).length = 1 ∧
    1 ≤ ((handleWebhook extTest cfgTest 0 successBody []).2.filter isGrantCall).length :=
  handleWebhook_payment_success_trace extTest cfgTest 0 successBody []
    ⟨successPayload, .jnull, true⟩ "000.100.110" (by rfl) rfl rfl rfl

end Axcess
